import Mathlib

/-!
# Verification of the Chakadola itinerary pipeline (`chakadola_graph.py`)

This file gives a shallow embedding of the core pipeline functions of the
repository — `context_function`, `main_function`, `rag_function`,
`map_function`, the place partition of `final_function`, together with the
helpers `extract_places`, `categorize_temperature`, `categorize_humidity`
and `smart_cost_model` — and proves properties of those embeddings.

Modelling conventions:
* Python `float` values are modelled by `ℚ` (all constants in the source are
  decimal literals; at every concrete input appearing in a theorem below the
  double-precision computation agrees with the exact rational one).
* Python builtin `round` is banker's rounding (round half to even) and is
  modelled by `pyRound`.
* A Python value that may be a number or `None` is modelled by `Option ℚ`;
  Python truthiness of such a value (`None`, `0` and `0.0` are falsy) is
  `truthy`.
* External collaborators (the generative-text service, the knowledge store,
  the random number generator) are modelled as explicit oracle parameters, so
  every theorem quantifies over all possible behaviours of the collaborator.
* A raised-and-caught Python exception is modelled with `Option`: `none`
  stands for "an exception escaped to the enclosing `except` handler".
-/

namespace Chakadola

/-! ## Python string primitives

The source manipulates strings with `str.strip()`, `str.split(",")`,
`str.split()`, `str.lower()` and the the substring operator `in`.  These are
modelled over `List Char` by structural recursion so that all of them reduce
inside the kernel. -/

/-- Characters removed by Python `str.strip()` / split by `str.split()`. -/
def isWS (c : Char) : Bool := c.isWhitespace

/-- Remove leading and trailing whitespace from a character list. -/
def trimChars (l : List Char) : List Char :=
  ((l.dropWhile isWS).reverse.dropWhile isWS).reverse

/-- Python `s.strip()`. -/
def pyStrip (s : String) : String := ⟨trimChars s.data⟩

/-- Split a character list at every character satisfying `p`, keeping empty
segments (the behaviour of Python `str.split(",")` for `p = (· = ',')`). -/
def splitAtChar (p : Char → Bool) (cur : List Char) : List Char → List (List Char)
  | [] => [cur.reverse]
  | c :: cs => if p c then cur.reverse :: splitAtChar p [] cs else splitAtChar p (c :: cur) cs

/-- Python `s.split(",")` (keeps empty parts). -/
def pySplitComma (s : String) : List String :=
  (splitAtChar (· = ',') [] s.data).map List.asString

/-- Python `s.split()` — split on whitespace runs, dropping empty parts. -/
def pySplitWS (s : String) : List String :=
  ((splitAtChar isWS [] s.data).map List.asString).filter (fun p => p ≠ "")

/-- Python `s.lower()` (ASCII case mapping suffices for the source's uses). -/
def pyLower (s : String) : String := ⟨s.data.map Char.toLower⟩

/-- `needle` is a prefix of `hay` (on character lists). -/
def isPrefixChars : List Char → List Char → Bool
  | [], _ => true
  | _ :: _, [] => false
  | a :: as, b :: bs => a = b && isPrefixChars as bs

/-- `needle` occurs somewhere in `hay` (on character lists). -/
def occursChars (needle : List Char) : List Char → Bool
  | [] => isPrefixChars needle []
  | b :: bs => isPrefixChars needle (b :: bs) || occursChars needle bs

/-- Python `needle in hay` for strings. -/
def containsSub (hay needle : String) : Bool := occursChars needle.data hay.data

/-- `extract_places` (chakadola_graph.py:155-159): split comma separated text,
strip each part, drop empties.  The `not isinstance(text, str)` guard of the
source is vacuous here because the argument is typed. -/
def extract_places (text : String) : List String :=
  ((pySplitComma text).map pyStrip).filter (fun p => p ≠ "")

/-! ## Weather categorization (chakadola_graph.py:161-169) -/

/-- `categorize_temperature` (chakadola_graph.py:161-164). -/
def categorize_temperature (c : ℚ) : String :=
  if c < 20 then "Cool" else if c ≤ 30 then "Warm" else "Hot"

/-- `categorize_humidity` (chakadola_graph.py:166-169). -/
def categorize_humidity (h : ℚ) : String :=
  if h < 40 then "Dry" else if h ≤ 70 then "Comfortable" else "Humid"

/-! ## Cost model (chakadola_graph.py:188-206) -/

/-- Python builtin `round` on a rational: round half to even. -/
def pyRound (q : ℚ) : ℤ :=
  let f := ⌊q⌋
  let r := q - f
  if r < 1/2 then f
  else if 1/2 < r then f + 1
  else if f % 2 = 0 then f else f + 1

/-- The `adjustment` factor computed inside `smart_cost_model`
(chakadola_graph.py:193-196):
`1 - (seniors*0.1 + children*0.15)/group_size if group_size > 0 else 1`. -/
def adjustment (group_size seniors children : ℕ) : ℚ :=
  let senior_discount : ℚ := seniors * 0.1
  let child_discount : ℚ := children * 0.15
  if 0 < group_size then 1 - (senior_discount + child_discount) / group_size else 1

/-- The dictionary returned by `smart_cost_model`. -/
structure CostBreakdown where
  stay : ℤ
  food : ℤ
  travel : ℤ
  activities : ℤ
  misc : ℤ
  total_per_person_day : ℤ
  total_trip_cost : ℕ
deriving DecidableEq

/-- `smart_cost_model` (chakadola_graph.py:188-206).  Division by zero (a
Python `ZeroDivisionError` when `duration * group_size = 0`) is not modelled;
ℚ-division then yields `0`. -/
def smart_cost_model (budget duration group_size seniors children : ℕ) : CostBreakdown :=
  let per_person_day : ℚ := budget / (duration * group_size)
  let adj := adjustment group_size seniors children
  { stay := pyRound (per_person_day * 0.40 * adj)
  , food := pyRound (per_person_day * 0.25)
  , travel := pyRound (per_person_day * 0.20 * adj)
  , activities := pyRound (per_person_day * 0.10)
  , misc := pyRound (per_person_day * 0.05)
  , total_per_person_day := pyRound per_person_day
  , total_trip_cost := budget }

/-! ## Request and context (chakadola_graph.py:142-150, 171-186, 211-227)

The request is a JSON-derived dictionary; the source reads every optional
field with `req.get(key, default)`.  Each field is therefore modelled as an
`Option`, `none` standing for an absent key.  (A key that is present with
value `None` — possible for `specific_places`/`preferences` through the
web form — raises inside `main_function` and is outside this model; no
theorem below depends on that corner.) -/

/-- The `request` dictionary fields used by the pipeline. -/
structure TripRequest where
  group_size : Option ℕ := none
  seniors : Option ℕ := none
  children : Option ℕ := none
  duration : Option ℕ := none
  start_date : Option String := none
  budget : Option ℕ := none
  vibes : Option (List String) := none
  preferences : Option String := none
  specific_places : Option String := none
deriving DecidableEq

/-- The `context` dictionary built by `context_function`. -/
structure Context where
  season : String
  is_family_trip : Bool
  is_budget_trip : Bool
  is_spiritual : Bool
  is_nature : Bool
  accessibility_needs : Bool
  dietary_restrictions : Bool
  pace : String
deriving DecidableEq

/-- Month extraction of `datetime.strptime(date_str, "%Y-%m-%d")`: the string
must be exactly `YYYY-MM-DD` in digits with `1 ≤ month ≤ 12` and
`1 ≤ day ≤ 31` (the per-month day bound of `strptime` is approximated by 31;
no theorem depends on that corner).  `none` models the `ValueError` caught
in `calculate_season`. -/
def parseMonth (s : String) : Option ℕ :=
  match s.data with
  | [y1, y2, y3, y4, h1, m1, m2, h2, d1, d2] =>
    if y1.isDigit && y2.isDigit && y3.isDigit && y4.isDigit && h1 = '-' && h2 = '-'
        && m1.isDigit && m2.isDigit && d1.isDigit && d2.isDigit then
      let month := (m1.toNat - 48) * 10 + (m2.toNat - 48)
      let day := (d1.toNat - 48) * 10 + (d2.toNat - 48)
      if 1 ≤ month ∧ month ≤ 12 ∧ 1 ≤ day ∧ day ≤ 31 then some month else none
    else none
  | _ => none

/-- `calculate_season` (chakadola_graph.py:171-186). -/
def calculate_season (date_str : String) : String :=
  match parseMonth date_str with
  | some month =>
    if month = 11 ∨ month = 12 ∨ month = 1 ∨ month = 2 then "Winter (Best time)"
    else if month = 3 ∨ month = 4 ∨ month = 5 then "Summer (Hot)"
    else if month = 6 ∨ month = 7 ∨ month = 8 ∨ month = 9 then "Monsoon (Rainy)"
    else "Post-Monsoon (Pleasant)"
  | none => "Unknown"

/-- `context_function` (chakadola_graph.py:211-227). -/
def context_function (req : TripRequest) : Context :=
  { season := calculate_season (req.start_date.getD "")
  , is_family_trip := decide (0 < req.seniors.getD 0) || decide (0 < req.children.getD 0)
  , is_budget_trip := decide (req.budget.getD 0 < 20000)
  , is_spiritual := (req.vibes.getD []).any fun v =>
      containsSub v "Spiritual" || containsSub v "Jagannath"
  , is_nature := (req.vibes.getD []).any fun v =>
      containsSub v "Nature" || containsSub v "Beach" || containsSub v "Eco"
  , accessibility_needs := containsSub (pyLower (req.preferences.getD "")) "wheelchair"
  , dietary_restrictions := containsSub (pyLower (req.preferences.getD "")) "veg"
  , pace := if containsSub (pyLower (req.preferences.getD "")) "slow" then "slow"
            else "moderate" }

/-! ## Place selector (chakadola_graph.py:232-283) -/

/-- The observable behaviour of the generative-text collaborator for one
`main_function` invocation: the client may be uninitialized (`llm` is
`None`), `llm.invoke` may raise after exhausting its retries, or it may
return a text. -/
inductive Gen where
  | unavailable
  | failure
  | text (s : String)
deriving DecidableEq

/-- The fallback-and-truncate tail of `main_function`
(chakadola_graph.py:268-279): if the parsed place list is empty choose the
context-indexed static default, then keep at most 6 entries. -/
def selectFallback (context : Context) (places : List String) : List String :=
  (if places = [] then
     if context.is_spiritual then ["Puri", "Konark", "Bhubaneswar", "Dhauli"]
     else if context.is_nature then ["Chilika", "Similipal", "Bhitarkanika", "Satkosia"]
     else ["Puri", "Konark", "Chilika", "Bhubaneswar"]
   else places).take 6

/-- `main_function` (chakadola_graph.py:232-283), returning the
`selected_places` list.  `Gen.failure` models an exception from
`llm.invoke` escaping to the outer `except` handler, which returns the
hardcoded three places (and sets the state's error slot, not modelled). -/
def main_function (req : TripRequest) (context : Context) (gen : Gen) : List String :=
  let user_places := pyStrip (req.specific_places.getD "")
  if user_places ≠ "" then extract_places user_places
  else
    match gen with
    | Gen.failure => ["Puri", "Konark", "Chilika"]
    | Gen.unavailable => selectFallback context []
    | Gen.text s => selectFallback context (extract_places s)

/-! ## Knowledge retriever (chakadola_graph.py:288-345) -/

/-- A place record as built by `rag_function` (the dictionary with keys
`place_name`, `description`, `lat`, `lng`, `district`, `city`, `entry_fee`,
`stay_cost`, `travel_cost`).  `lat`/`lng` are `Option ℚ` because ChromaDB
metadata may carry `None` there. -/
structure PlaceRecord where
  place_name : String
  description : String
  lat : Option ℚ
  lng : Option ℚ
  district : String
  city : String
  entry_fee : ℚ
  stay_cost : ℚ
  travel_cost : ℚ
deriving DecidableEq

/-- `FALLBACK_PLACES` (chakadola_graph.py:83-119), keyed by leading token. -/
def FALLBACK_PLACES (key : String) : Option PlaceRecord :=
  if key = "Puri" then some
    { place_name := "Puri Jagannath Temple"
    , description := "Sacred temple of Lord Jagannath, one of the Char Dham pilgrimage sites"
    , lat := some 19.8135, lng := some 85.8312
    , district := "Puri", city := "Puri"
    , entry_fee := 0, stay_cost := 1500, travel_cost := 500 }
  else if key = "Konark" then some
    { place_name := "Konark Sun Temple"
    , description := "UNESCO World Heritage Site, 13th century architectural marvel"
    , lat := some 19.8876, lng := some 86.0945
    , district := "Puri", city := "Konark"
    , entry_fee := 40, stay_cost := 1200, travel_cost := 600 }
  else if key = "Chilika" then some
    { place_name := "Chilika Lake"
    , description := "Asia's largest brackish water lagoon, home to migratory birds"
    , lat := some 19.7165, lng := some 85.3206
    , district := "Puri", city := "Balugaon"
    , entry_fee := 50, stay_cost := 1000, travel_cost := 700 }
  else if key = "Bhubaneswar" then some
    { place_name := "Lingaraj Temple"
    , description := "11th century temple dedicated to Lord Shiva, architectural masterpiece"
    , lat := some 20.2379, lng := some 85.8337
    , district := "Khordha", city := "Bhubaneswar"
    , entry_fee := 0, stay_cost := 1800, travel_cost := 400 }
  else if key = "Dhauli" then some
    { place_name := "Dhauli Shanti Stupa"
    , description := "Peace pagoda marking Emperor Ashoka's transformation"
    , lat := some 20.1897, lng := some 85.8545
    , district := "Khordha", city := "Bhubaneswar"
    , entry_fee := 0, stay_cost := 1500, travel_cost := 300 }
  else none

/-- One batch of values drawn from `random` while synthesizing a generic
record (chakadola_graph.py:326-336): the two `random.uniform(-0.5, 0.5)`
jitters, the `random.choice([0, 20, 40, 50])` entry fee and the two
`random.randint` costs.  Treated as an unconstrained oracle. -/
structure RandDraw where
  dLat : ℚ
  dLng : ℚ
  fee : ℚ
  stay : ℚ
  travel : ℚ
deriving DecidableEq

/-- The generic synthesized record (chakadola_graph.py:326-336). -/
def synthRecord (place : String) (r : RandDraw) : PlaceRecord :=
  { place_name := place
  , description := "Popular destination in Odisha: " ++ place
  , lat := some (20.2961 + r.dLat), lng := some (85.8245 + r.dLng)
  , district := "Odisha", city := place
  , entry_fee := r.fee, stay_cost := r.stay, travel_cost := r.travel }

/-- Resolution of a single place name (the body of the `for` loop of
`rag_function`, chakadola_graph.py:294-338).  The `chroma` oracle models
lines 297-317 as a whole: it returns the record built from the ChromaDB
metadata (with the source's `meta.get` defaults already applied), or `none`
when the store/embedder is unavailable, the query raises (caught at line
316), or the response carries no metadata.  `none` as overall result models
the uncaught `IndexError` of `place.split()[0]` on a name with no
non-whitespace character (line 321). -/
def ragOne (chroma : String → Option PlaceRecord) (rand : String → RandDraw)
    (place : String) : Option PlaceRecord :=
  match chroma place with
  | some place_data => some place_data
  | none =>
    match (pySplitWS place).head? with
    | none => none
    | some place_key =>
      match FALLBACK_PLACES place_key with
      | some place_data => some place_data
      | none => some (synthRecord place (rand place))

/-- The accumulation loop of `rag_function`: `none` when some iteration
raised, in which case the partially built list is discarded. -/
def ragLoop (chroma : String → Option PlaceRecord) (rand : String → RandDraw) :
    List String → Option (List PlaceRecord)
  | [] => some []
  | place :: rest =>
    match ragOne chroma rand place, ragLoop chroma rand rest with
    | some r, some rs => some (r :: rs)
    | _, _ => none

/-- `rag_function` (chakadola_graph.py:288-345), returning the
`rag_results` list: on an exception anywhere in the loop the outer
`except` handler returns an empty list (and sets the error slot). -/
def rag_function (chroma : String → Option PlaceRecord) (rand : String → RandDraw)
    (selected : List String) : List PlaceRecord :=
  (ragLoop chroma rand selected).getD []

/-! ## Route planner (chakadola_graph.py:411-466) -/

/-- Python truthiness of a number-or-`None` value (`p.get("lat")`):
`None`, `0` and `0.0` are falsy. -/
def truthy : Option ℚ → Bool
  | Option.none => false
  | some x => decide (x ≠ 0)

/-- An element of `leaflet_points` (chakadola_graph.py:416-420). -/
structure LeafletPoint where
  name : String
  lat : ℚ
  lng : ℚ
deriving DecidableEq

/-- The `map_info` dictionary.  `center := none` models the `center` key
being absent from the returned dictionary (the early-return branch at
chakadola_graph.py:424-430 does not set it). -/
structure MapInfo where
  leaflet_points : List LeafletPoint
  route_order : List String
  coords_array : List (ℚ × ℚ)
  center : Option (ℚ × ℚ)
deriving DecidableEq

/-- Python `set(a) == set(b)` for lists of strings. -/
def pySetEq (a b : List String) : Bool :=
  a.all (fun x => b.contains x) && b.all (fun x => a.contains x)

/-- The coordinate-presence filter of `map_function`
(chakadola_graph.py:416-420): keep records whose `lat` and `lng` are both
truthy. -/
def mappableRecords (rag : List PlaceRecord) : List PlaceRecord :=
  rag.filter fun p => truthy p.lat && truthy p.lng

/-- The names of the mappable records, in input order — the candidate set
and fallback route of `map_function` (chakadola_graph.py:433). -/
def mappableNames (rag : List PlaceRecord) : List String :=
  (mappableRecords rag).map PlaceRecord.place_name

/-- `map_function` (chakadola_graph.py:411-466), returning the `map_info`
dictionary.  `proposal` is the generative-text collaborator's route
suggestion after `extract_places` parsing; `none` models `llm` being
`None` or `llm.invoke` raising (caught at line 449, keeping the input
order).  The guard `2 < length` mirrors `len(leaflet_points) > 2`. -/
def map_function (rag : List PlaceRecord) (proposal : Option (List String)) : MapInfo :=
  let leaflet_points := (mappableRecords rag).map fun p =>
    { name := p.place_name, lat := p.lat.getD 0, lng := p.lng.getD 0 : LeafletPoint }
  if leaflet_points = [] then
    { leaflet_points := [], route_order := [], coords_array := [], center := Option.none }
  else
    let route_order := leaflet_points.map (·.name)
    let route_order :=
      if 2 < leaflet_points.length then
        match proposal with
        | some suggested_route =>
          if pySetEq suggested_route route_order then suggested_route else route_order
        | Option.none => route_order
      else route_order
    let coords_array := leaflet_points.map fun p => (p.lat, p.lng)
    { leaflet_points := leaflet_points
    , route_order := route_order
    , coords_array := coords_array
    , center := match coords_array with
        | [] => some (20.2961, 85.8245)
        | c :: _ => some c }

/-! ## Itinerary assembler: the place partition (chakadola_graph.py:491-498)

`final_function` spreads `selected_places` over the days of the trip with
`places_per_day = max(1, len(places) // duration)` and the slice
`places[start_idx:end_idx]`, the last day taking everything that remains.
The embedding below covers exactly that slicing; the remaining per-day
enrichment (dates, weather, cost, tips) does not touch which place goes to
which day. -/

/-- The places scheduled on day `day` (1-based) by `final_function`. -/
def final_dayPlaces (places : List String) (duration : ℕ) (day : ℕ) : List String :=
  let places_per_day := max 1 (places.length / duration)
  let start_idx := (day - 1) * places_per_day
  let end_idx := if day < duration then start_idx + places_per_day else places.length
  (places.drop start_idx).take (end_idx - start_idx)

/-- The per-day place lists of the generated itinerary, in day order
(`for day in range(1, duration + 1)`). -/
def final_days (places : List String) (duration : ℕ) : List (List String) :=
  (List.range duration).map fun i => final_dayPlaces places duration (i + 1)

/-! ## Concrete fixtures used by witnesses and counterexamples -/

/-- A neutral derived context (all flags off). -/
def ctxNeutral : Context :=
  { season := "Unknown", is_family_trip := false, is_budget_trip := false
  , is_spiritual := false, is_nature := false, accessibility_needs := false
  , dietary_restrictions := false, pace := "moderate" }

/-- A request carrying the explicit place list of the spec's example. -/
def reqExplicitPlaces : TripRequest :=
  { specific_places := some "Puri, Konark, Chilika Lake" }

/-- A request whose explicit place list parses to seven names. -/
def req7 : TripRequest :=
  { specific_places := some "A, B, C, D, E, F, G" }

/-- A request with a lowercase spiritual vibe. -/
def reqLowerVibes : TripRequest := { vibes := some ["spiritual"] }

/-- A request with every optional field absent. -/
def reqEmptyFields : TripRequest := {}

/-- The request of `test.py` (src/test.py:15-23). -/
def reqTest : TripRequest :=
  { group_size := some 4, duration := some 3, start_date := some "2025-02-14"
  , budget := some 15000, specific_places := some "Puri, Konark, Chilika Lake"
  , vibes := some ["Spiritual", "Nature"], preferences := some "Pure veg, slow travel" }

/-- A degenerate random draw for concrete evaluations. -/
def randZero : String → RandDraw := fun _ => ⟨0, 0, 0, 0, 0⟩

/-- A knowledge store that never answers (ChromaDB unavailable). -/
def chromaEmpty : String → Option PlaceRecord := fun _ => Option.none

/-- Three mappable records named A, B, C. -/
def recA : PlaceRecord :=
  ⟨"A", "a", some 1, some 2, "d", "c", 0, 0, 0⟩

def recB : PlaceRecord :=
  ⟨"B", "b", some 3, some 4, "d", "c", 0, 0, 0⟩

def recC : PlaceRecord :=
  ⟨"C", "c", some 5, some 6, "d", "c", 0, 0, 0⟩

/-- A record whose latitude is exactly 0 (present but falsy). -/
def recZeroLat : PlaceRecord :=
  ⟨"Z", "z", some 0, some 7, "d", "c", 0, 0, 0⟩

end Chakadola

namespace Chakadola

/-! ## Theorems -/

/-! ### String helper lemmas -/

theorem dropWhile_idem (p : Char → Bool) (l : List Char) :
    (l.dropWhile p).dropWhile p = l.dropWhile p := by
  induction l with
  | nil => rfl
  | cons a l ih =>
    by_cases h : p a
    · simp [List.dropWhile_cons, h, ih]
    · simp [List.dropWhile_cons, h]

theorem dropWhile_head?_false (p : Char → Bool) (l : List Char) (a : Char)
    (h : (l.dropWhile p).head? = some a) : p a = false := by
  induction l with
  | nil => simp at h
  | cons b l ih =>
    by_cases hb : p b
    · rw [List.dropWhile_cons_of_pos hb] at h
      exact ih h
    · rw [List.dropWhile_cons_of_neg hb] at h
      simp only [List.head?_cons, Option.some.injEq] at h
      subst h
      exact Bool.not_eq_true _ ▸ Bool.of_not_eq_true hb

theorem dropWhile_of_head?_false (p : Char → Bool) (l : List Char)
    (h : ∀ a, l.head? = some a → p a = false) : l.dropWhile p = l := by
  cases l with
  | nil => rfl
  | cons a l => simp [List.dropWhile_cons, h a rfl]

theorem trimChars_idem (l : List Char) : trimChars (trimChars l) = trimChars l := by
  unfold trimChars
  set A := l.dropWhile isWS with hA
  set B := A.reverse.dropWhile isWS with hB
  have h1 : B.reverse.dropWhile isWS = B.reverse := by
    apply dropWhile_of_head?_false
    intro a ha
    have hpre : A = B.reverse ++ (A.reverse.takeWhile isWS).reverse := by
      have h2 : A.reverse.takeWhile isWS ++ B = A.reverse := by
        rw [hB]; exact List.takeWhile_append_dropWhile isWS A.reverse
      calc A = A.reverse.reverse := (List.reverse_reverse A).symm
        _ = (A.reverse.takeWhile isWS ++ B).reverse := by rw [h2]
        _ = B.reverse ++ (A.reverse.takeWhile isWS).reverse := List.reverse_append _ _
    have hha : A.head? = some a := by
      rw [hpre]
      cases hBr : B.reverse with
      | nil => rw [hBr] at ha; simp at ha
      | cons x xs =>
        rw [hBr] at ha
        simp only [List.head?_cons, Option.some.injEq] at ha
        simp [ha]
    exact dropWhile_head?_false isWS l a (hA ▸ hha)
  rw [h1, List.reverse_reverse, hB, dropWhile_idem]

theorem pyStrip_idem (s : String) : pyStrip (pyStrip s) = pyStrip s := by
  show String.mk (trimChars (trimChars s.data)) = String.mk (trimChars s.data)
  exact congrArg String.mk (trimChars_idem s.data)

theorem extract_places_mem {s p : String} (hp : p ∈ extract_places s) :
    p ≠ "" ∧ pyStrip p = p := by
  unfold extract_places at hp
  rw [List.mem_filter] at hp
  obtain ⟨hmem, hne⟩ := hp
  rw [List.mem_map] at hmem
  obtain ⟨q, _, rfl⟩ := hmem
  exact ⟨of_decide_eq_true hne, pyStrip_idem q⟩

/-! ### Place selector helper lemmas -/

theorem selectFallback_length (c : Context) (places : List String) :
    1 ≤ (selectFallback c places).length ∧ (selectFallback c places).length ≤ 6 := by
  unfold selectFallback
  split_ifs with h1 h2 h3
  · decide
  · decide
  · decide
  · have hne : places.length ≠ 0 := by
      intro h0
      exact h1 (List.length_eq_zero.mp h0)
    simp only [List.length_take]
    omega

theorem selectFallback_mem (c : Context) (places : List String)
    (h : ∀ p ∈ places, p ≠ "" ∧ pyStrip p = p) :
    ∀ p ∈ selectFallback c places, p ≠ "" ∧ pyStrip p = p := by
  intro p hp
  unfold selectFallback at hp
  split_ifs at hp with h1 h2 h3
  · exact (by decide :
      ∀ q ∈ (["Puri", "Konark", "Bhubaneswar", "Dhauli"] : List String).take 6,
        q ≠ "" ∧ pyStrip q = q) p hp
  · exact (by decide :
      ∀ q ∈ (["Chilika", "Similipal", "Bhitarkanika", "Satkosia"] : List String).take 6,
        q ≠ "" ∧ pyStrip q = q) p hp
  · exact (by decide :
      ∀ q ∈ (["Puri", "Konark", "Chilika", "Bhubaneswar"] : List String).take 6,
        q ≠ "" ∧ pyStrip q = q) p hp
  · exact h p (List.take_subset 6 places hp)

/-! ### Claim theorems -/

/-- **C1 (amended).** `main_function` always returns non-empty,
whitespace-trimmed names; when the request carries no usable explicit place
list (the stripped `specific_places` field is empty) the result has between
1 and 6 entries; an explicit place list is parsed and returned verbatim
without consulting the generative collaborator — in particular, without the
1–6 bound: see the counterexample — and for the request whose
`specific_places` is `"Puri, Konark, Chilika Lake"` the result is exactly
`["Puri", "Konark", "Chilika Lake"]` for every collaborator behaviour. -/
theorem C1_place_selector_amended (req : TripRequest) (context : Context) (gen : Gen) :
    (∀ p ∈ main_function req context gen, p ≠ "" ∧ pyStrip p = p) ∧
    (pyStrip (req.specific_places.getD "") = "" →
      1 ≤ (main_function req context gen).length ∧
        (main_function req context gen).length ≤ 6) ∧
    (pyStrip (req.specific_places.getD "") ≠ "" →
      main_function req context gen
          = extract_places (pyStrip (req.specific_places.getD "")) ∧
      ∀ gen2, main_function req context gen2 = main_function req context gen) ∧
    (∀ c2 gen2, main_function reqExplicitPlaces c2 gen2
        = ["Puri", "Konark", "Chilika Lake"]) := by
  refine ⟨?_, ?_, ?_, ?_⟩
  · intro p hp
    simp only [main_function] at hp
    split_ifs at hp with h
    · exact extract_places_mem hp
    · cases gen with
      | failure =>
        exact (by decide :
          ∀ q ∈ (["Puri", "Konark", "Chilika"] : List String), q ≠ "" ∧ pyStrip q = q) p hp
      | unavailable => exact selectFallback_mem _ _ (by simp) p hp
      | text s => exact selectFallback_mem _ _ (fun q hq => extract_places_mem hq) p hp
  · intro h
    have hcond : ¬ (pyStrip (req.specific_places.getD "") ≠ "") := by simp [h]
    cases gen with
    | failure =>
      have hm : main_function req context Gen.failure = ["Puri", "Konark", "Chilika"] := by
        simp only [main_function]
        rw [if_neg hcond]
      rw [hm]; decide
    | unavailable =>
      have hm : main_function req context Gen.unavailable = selectFallback context [] := by
        simp only [main_function]
        rw [if_neg hcond]
      rw [hm]; exact selectFallback_length _ _
    | text s =>
      have hm : main_function req context (Gen.text s)
          = selectFallback context (extract_places s) := by
        simp only [main_function]
        rw [if_neg hcond]
      rw [hm]; exact selectFallback_length _ _
  · intro h
    refine ⟨?_, ?_⟩
    · simp only [main_function]
      rw [if_pos h]
    · intro gen2
      simp only [main_function]
      rw [if_pos h, if_pos h]
  · intro c2 gen2
    have h : pyStrip ((reqExplicitPlaces.specific_places).getD "") ≠ "" := by decide
    simp only [main_function]
    rw [if_pos h]
    decide

/-- Witness for C1: at the request with explicit places
`"Puri, Konark, Chilika Lake"`, the strip is non-empty, the parsed list is
returned verbatim, and it equals the three expected names. -/
theorem C1_place_selector_witness :
    main_function reqExplicitPlaces ctxNeutral Gen.unavailable
        = extract_places (pyStrip ((reqExplicitPlaces.specific_places).getD "")) ∧
    main_function reqExplicitPlaces ctxNeutral Gen.unavailable
        = ["Puri", "Konark", "Chilika Lake"] :=
  ⟨((C1_place_selector_amended reqExplicitPlaces ctxNeutral Gen.unavailable).2.2.1
      (by decide)).1,
    (C1_place_selector_amended reqExplicitPlaces ctxNeutral Gen.unavailable).2.2.2
      ctxNeutral Gen.unavailable⟩

/-- **C1 (counterexample).** A request whose explicit `specific_places`
field parses to seven names makes `main_function` return seven names,
contradicting the claimed 1–6 bound: the explicit-places path skips the
`[:6]` truncation. -/
theorem C1_place_selector_counterexample :
    (main_function req7 ctxNeutral Gen.unavailable).length = 7 ∧
    ¬ (main_function req7 ctxNeutral Gen.unavailable).length ≤ 6 := by
  constructor <;> decide

/-- **C5 (amended).** Every boolean flag of `context_function` is total on
requests with absent optional fields (absent fields behave as `""`/`0`/`[]`;
note the budget flag is then *set*, since the default `0` is below the
20000 threshold); the spiritual and nature flags are **case-sensitive**
substring checks over the vibes; the accessibility and dietary flags are
case-insensitive substring checks over the preferences (invariant under any
change of the preference text that preserves its lowercasing); the family
flag is a numeric threshold check. -/
theorem C5_context_flags_amended (req : TripRequest) :
    ((context_function req).is_spiritual = true ↔
      ∃ v ∈ req.vibes.getD [], containsSub v "Spiritual" = true ∨
        containsSub v "Jagannath" = true) ∧
    ((context_function req).is_nature = true ↔
      ∃ v ∈ req.vibes.getD [], containsSub v "Nature" = true ∨
        containsSub v "Beach" = true ∨ containsSub v "Eco" = true) ∧
    ((context_function req).accessibility_needs = true ↔
      containsSub (pyLower (req.preferences.getD "")) "wheelchair" = true) ∧
    ((context_function req).dietary_restrictions = true ↔
      containsSub (pyLower (req.preferences.getD "")) "veg" = true) ∧
    ((context_function req).is_family_trip = true ↔
      0 < req.seniors.getD 0 ∨ 0 < req.children.getD 0) ∧
    ((context_function req).is_budget_trip = true ↔ req.budget.getD 0 < 20000) ∧
    (∀ p2, pyLower p2 = pyLower (req.preferences.getD "") →
      (context_function { req with preferences := some p2 }).accessibility_needs
          = (context_function req).accessibility_needs ∧
      (context_function { req with preferences := some p2 }).dietary_restrictions
          = (context_function req).dietary_restrictions) := by
  refine ⟨?_, ?_, Iff.rfl, Iff.rfl, ?_, ?_, ?_⟩
  · simp [context_function, List.any_eq_true, Bool.or_eq_true]
  · simp [context_function, List.any_eq_true, Bool.or_eq_true, or_assoc]
  · simp [context_function, Bool.or_eq_true, decide_eq_true_eq]
  · simp [context_function, decide_eq_true_eq]
  · intro p2 hp
    simp only [context_function]
    rw [show (some p2).getD "" = p2 from rfl, hp]
    exact ⟨rfl, rfl⟩

/-- Witness for C5: the vibe list `["Spiritual", "Nature"]` of the
`test.py` request sets the spiritual flag. -/
theorem C5_context_flags_witness :
    (context_function reqTest).is_spiritual = true :=
  (C5_context_flags_amended reqTest).1.mpr ⟨"Spiritual", by decide, Or.inl (by decide)⟩

/-- **C5 (counterexample).** The vibe checks are case-sensitive: a request
whose vibes are `["spiritual"]` (lowercase) does not set the spiritual flag,
contradicting the claimed case-insensitive check; and a request with an
absent budget field has the budget flag *set*, not "not-set". -/
theorem C5_context_flags_counterexample :
    (context_function reqLowerVibes).is_spiritual = false ∧
    (context_function reqEmptyFields).is_budget_trip = true := by
  constructor <;> decide

/-! ### Knowledge retriever lemmas -/

theorem ragOne_isSome (chroma : String → Option PlaceRecord) (rand : String → RandDraw)
    (s : String) (h : (chroma s).isSome = true ∨ pySplitWS s ≠ []) :
    (ragOne chroma rand s).isSome = true := by
  unfold ragOne
  cases hc : chroma s with
  | some r => rfl
  | none =>
    rcases h with h | h
    · rw [hc] at h; simp at h
    · cases hsp : pySplitWS s with
      | nil => exact absurd hsp h
      | cons k rest =>
        simp only [List.head?_cons]
        cases FALLBACK_PLACES k <;> rfl

theorem ragLoop_eq (chroma : String → Option PlaceRecord) (rand : String → RandDraw)
    (selected : List String)
    (h : ∀ s ∈ selected, (ragOne chroma rand s).isSome = true) :
    ragLoop chroma rand selected
      = some (selected.map fun s => (ragOne chroma rand s).getD (synthRecord s (rand s))) := by
  induction selected with
  | nil => rfl
  | cons a l ih =>
    have ha := h a (List.mem_cons_self a l)
    obtain ⟨r, hr⟩ := Option.isSome_iff_exists.mp ha
    have hl := ih (fun s hs => h s (List.mem_cons_of_mem a hs))
    simp only [ragLoop, hr, hl, List.map_cons, Option.getD_some]

/-- **C4 (amended).** For every list of place names in which each name is
either answered by the knowledge store or contains at least one
non-whitespace character, `rag_function` returns exactly one `PlaceRecord`
per input name, in input order, each record depending only on its own name
(store answer, else fixture table by leading token, else synthesized
generic record).  A whitespace-only name that the store does not answer
raises `IndexError` at `place.split()[0]`, aborting the *whole* batch — see
the counterexample. -/
theorem C4_rag_amended (chroma : String → Option PlaceRecord) (rand : String → RandDraw)
    (selected : List String)
    (h : ∀ s ∈ selected, (chroma s).isSome = true ∨ pySplitWS s ≠ []) :
    rag_function chroma rand selected
        = selected.map (fun s => (ragOne chroma rand s).getD (synthRecord s (rand s))) ∧
    (∀ s, chroma s = Option.none → pySplitWS s ≠ [] →
      FALLBACK_PLACES ((pySplitWS s).head?.getD "") = Option.none →
      ragOne chroma rand s = some (synthRecord s (rand s))) := by
  constructor
  · unfold rag_function
    rw [ragLoop_eq chroma rand selected (fun s hs => ragOne_isSome chroma rand s (h s hs))]
    rfl
  · intro s hc hsp hfb
    unfold ragOne
    rw [hc]
    cases hsp2 : pySplitWS s with
    | nil => exact absurd hsp2 hsp
    | cons k rest =>
      rw [hsp2] at hfb
      simp only [List.head?_cons, Option.getD_some] at hfb
      simp only [List.head?_cons, hfb]

/-- Witness for C4: a batch of two resolvable names (one hitting the
fixture table, one falling through to synthesis) maps 1:1 in order. -/
theorem C4_rag_witness :
    rag_function chromaEmpty randZero ["Puri", "Newplace"]
      = ["Puri", "Newplace"].map
          (fun s => (ragOne chromaEmpty randZero s).getD (synthRecord s (randZero s))) :=
  (C4_rag_amended chromaEmpty randZero ["Puri", "Newplace"] (by decide)).1

/-- **C4 (counterexample).** On the input list `[""]` (one empty place
name) with the knowledge store unavailable, `rag_function` returns the
empty list — zero records for one input name, and the per-name isolation
fails because the one bad name aborts the whole batch. -/
theorem C4_rag_counterexample :
    rag_function chromaEmpty randZero [""] = [] ∧ ([""] : List String).length = 1 :=
  ⟨rfl, rfl⟩

/-! ### Route planner lemmas -/

theorem map_route_eq (rag : List PlaceRecord) (proposal : Option (List String)) :
    (map_function rag proposal).route_order =
      (if 2 < (mappableNames rag).length then
        match proposal with
        | some suggested =>
          if pySetEq suggested (mappableNames rag) then suggested else mappableNames rag
        | Option.none => mappableNames rag
      else mappableNames rag) := by
  simp only [map_function]
  by_cases hL : ((mappableRecords rag).map fun p =>
      ({ name := p.place_name, lat := p.lat.getD 0, lng := p.lng.getD 0 } : LeafletPoint)) = []
  · rw [if_pos hL]
    have hm : mappableRecords rag = [] := List.map_eq_nil_iff.mp hL
    simp [mappableNames, hm]
  · rw [if_neg hL]
    have hnames : ((mappableRecords rag).map fun p =>
        ({ name := p.place_name, lat := p.lat.getD 0, lng := p.lng.getD 0 } : LeafletPoint)).map
          (fun p => p.name) = mappableNames rag := by
      rw [List.map_map]; rfl
    have hlen : ((mappableRecords rag).map fun p =>
        ({ name := p.place_name, lat := p.lat.getD 0, lng := p.lng.getD 0 } : LeafletPoint)).length
          = (mappableNames rag).length := by
      rw [List.length_map, mappableNames, List.length_map]
    simp only [hnames, hlen]

/-- **C2 (amended).** The route order of `map_function` is either the input
order of the mappable points or a collaborator proposal whose name **set**
(Python `set` equality, not multiset) equals the candidate name set; a
proposal whose name set differs from the candidate set is always rejected,
and on collaborator failure the input order is kept.  Because the check is
set equality, an accepted proposal need not be a permutation of the
candidates — see the counterexample. -/
theorem C2_route_amended (rag : List PlaceRecord) (proposal : Option (List String)) :
    ((map_function rag proposal).route_order = mappableNames rag ∨
      ∃ suggested, proposal = some suggested ∧
        pySetEq suggested (mappableNames rag) = true ∧
        2 < (mappableNames rag).length ∧
        (map_function rag proposal).route_order = suggested) ∧
    (∀ suggested, proposal = some suggested →
      pySetEq suggested (mappableNames rag) = false →
      (map_function rag proposal).route_order = mappableNames rag) ∧
    (proposal = Option.none →
      (map_function rag proposal).route_order = mappableNames rag) ∧
    (∀ suggested, proposal = some suggested →
      pySetEq suggested (mappableNames rag) = true →
      2 < (mappableNames rag).length →
      (map_function rag proposal).route_order = suggested) := by
  refine ⟨?_, ?_, ?_, ?_⟩
  · rw [map_route_eq]
    by_cases h2 : 2 < (mappableNames rag).length
    · rw [if_pos h2]
      cases proposal with
      | none => exact Or.inl rfl
      | some suggested =>
        by_cases hset : pySetEq suggested (mappableNames rag) = true
        · exact Or.inr ⟨suggested, rfl, hset, h2, by simp only []; rw [if_pos hset]⟩
        · simp only []
          rw [if_neg hset]
          exact Or.inl rfl
    · rw [if_neg h2]
      exact Or.inl rfl
  · intro suggested hp hset
    subst hp
    rw [map_route_eq]
    by_cases h2 : 2 < (mappableNames rag).length
    · rw [if_pos h2]
      simp only []
      rw [if_neg (by simp [hset])]
    · rw [if_neg h2]
  · intro hp
    subst hp
    rw [map_route_eq]
    by_cases h2 : 2 < (mappableNames rag).length
    · rw [if_pos h2]
    · rw [if_neg h2]
  · intro suggested hp hset h2
    subst hp
    rw [map_route_eq, if_pos h2]
    simp only []
    rw [if_pos hset]

/-- Witness for C2: a proposal that is a genuine permutation of the three
candidates A, B, C is accepted verbatim. -/
theorem C2_route_witness :
    (map_function [recA, recB, recC] (some ["C", "B", "A"])).route_order = ["C", "B", "A"] :=
  (C2_route_amended [recA, recB, recC] (some ["C", "B", "A"])).2.2.2
    ["C", "B", "A"] rfl (by decide) (by decide)

/-- **C2 (counterexample).** The validation uses Python `set` equality, not
multiset equality: against the candidates A, B, C, the proposal
`["A", "A", "B", "C"]` has an equal name *set* and is accepted as the route
order, although its name multiset differs and it is not a permutation of
the candidate names (and it differs from the input order). -/
theorem C2_route_counterexample :
    (map_function [recA, recB, recC] (some ["A", "A", "B", "C"])).route_order
        = ["A", "A", "B", "C"] ∧
    ¬ (["A", "A", "B", "C"] : List String).Perm (mappableNames [recA, recB, recC]) := by
  constructor <;> decide

/-- **C9 (amended).** When no input record has both coordinates truthy,
`map_function` returns an empty `map_info` with *no* map-centering hint at
all (the `center` key is absent; the fixed regional fallback coordinate at
chakadola_graph.py:460 is dead code, since in the branch that sets `center`
the coordinate array is never empty); when at least one point qualifies,
the centering hint equals the first qualifying point's coordinate pair. -/
theorem C9_map_center_amended (rag : List PlaceRecord) (proposal : Option (List String)) :
    (mappableRecords rag = [] →
      map_function rag proposal
        = { leaflet_points := [], route_order := [], coords_array := []
          , center := Option.none }) ∧
    (∀ p rest, mappableRecords rag = p :: rest →
      (map_function rag proposal).center = some (p.lat.getD 0, p.lng.getD 0)) := by
  constructor
  · intro hm
    simp [map_function, hm]
  · intro p rest hm
    simp only [map_function, hm, List.map_cons]
    rw [if_neg (by simp)]

/-- Witness for C9: with two mappable records the centering hint is the
first record's coordinates, and with a single non-truthy record the empty
`map_info` without `center` is returned. -/
theorem C9_map_center_witness :
    (map_function [recA, recB] Option.none).center = some ((1 : ℚ), (2 : ℚ)) ∧
    map_function [recZeroLat] Option.none
      = { leaflet_points := [], route_order := [], coords_array := []
        , center := Option.none } :=
  ⟨(C9_map_center_amended [recA, recB] Option.none).2 recA [recB] (by decide),
    (C9_map_center_amended [recZeroLat] Option.none).1 (by decide)⟩

/-- **C9 (counterexample).** With no mappable point the returned `map_info`
carries no `center` key at all, not the claimed fixed regional fallback
coordinate `[20.2961, 85.8245]`. -/
theorem C9_map_center_counterexample :
    (map_function [] Option.none).center = Option.none ∧
    (map_function [] Option.none).center ≠ some (20.2961, 85.8245) := by
  refine ⟨rfl, ?_⟩
  intro h
  simp only [map_function] at h
  exact Option.noConfusion (h.symm.trans rfl)

/-- **C10.** The coordinate-presence filter of `map_function` tests Python
truthiness, not key presence: a record whose latitude or longitude is
exactly 0 (or `None`/absent) is excluded from the mappable points, route
order and coordinate array exactly as if the record were not there at
all. -/
theorem C10_truthiness_filter (pre post : List PlaceRecord) (p : PlaceRecord)
    (proposal : Option (List String))
    (h : p.lat = some 0 ∨ p.lng = some 0 ∨ p.lat = Option.none ∨ p.lng = Option.none) :
    map_function (pre ++ p :: post) proposal = map_function (pre ++ post) proposal := by
  have hp : (truthy p.lat && truthy p.lng) = false := by
    rcases h with h | h | h | h <;> simp [truthy, h]
  have hfil : mappableRecords (pre ++ p :: post) = mappableRecords (pre ++ post) := by
    unfold mappableRecords
    simp [List.filter_append, List.filter_cons, hp]
  unfold map_function
  rw [hfil]

/-- Witness for C10: a record with latitude exactly 0 in front of a
mappable record yields the same `map_info` as the mappable record alone. -/
theorem C10_truthiness_filter_witness :
    map_function [recZeroLat, recA] Option.none = map_function [recA] Option.none :=
  C10_truthiness_filter [] [recA] recZeroLat Option.none (Or.inl rfl)

/-! ### Itinerary partition lemmas -/

theorem chunk_join (p : ℕ) : ∀ (n : ℕ), 1 ≤ n → ∀ (l : List String),
    ((List.range n).map fun i =>
      if i + 1 < n then (l.drop (i * p)).take p else l.drop (i * p)).flatten = l := by
  intro n
  induction n with
  | zero => omega
  | succ n ih =>
    intro _ l
    rcases Nat.eq_zero_or_pos n with hn | hn
    · subst hn
      simp [List.range_succ]
    · rw [List.range_succ_eq_map, List.map_cons, List.map_map, List.flatten_cons]
      rw [if_pos (by omega)]
      have hmap : (List.range n).map ((fun i => if i + 1 < n + 1 then (l.drop (i * p)).take p
            else l.drop (i * p)) ∘ Nat.succ)
          = (List.range n).map (fun i => if i + 1 < n then ((l.drop p).drop (i * p)).take p
            else (l.drop p).drop (i * p)) := by
        apply List.map_congr_left
        intro i _
        simp only [Function.comp]
        have h2 : l.drop (Nat.succ i * p) = (l.drop p).drop (i * p) := by
          rw [List.drop_drop]
          congr 1
          rw [Nat.succ_mul, Nat.add_comm]
        rw [h2]
        by_cases h3 : i + 1 < n
        · rw [if_pos (by omega), if_pos h3]
        · rw [if_neg (by omega), if_neg h3]
      rw [hmap, ih hn (l.drop p)]
      simp

/-- The per-day slices of `final_function` concatenate, in day order, to
exactly the selected-place list: no place omitted, none duplicated. -/
theorem final_days_join (places : List String) (duration : ℕ) (hD : 1 ≤ duration) :
    (final_days places duration).flatten = places := by
  have hchunk := chunk_join (max 1 (places.length / duration)) duration hD places
  refine Eq.trans (congrArg List.flatten ?_) hchunk
  unfold final_days final_dayPlaces
  apply List.map_congr_left
  intro i hi
  simp only [Nat.add_sub_cancel]
  by_cases h : i + 1 < duration
  · rw [if_pos h, if_pos h]
    simp [Nat.add_sub_cancel_left]
  · rw [if_neg h, if_neg h]
    conv_lhs => rw [← List.length_drop]
    rw [List.take_length]

theorem final_dayPlaces_length (places : List String) (duration d : ℕ)
    (hdd : duration ≤ places.length) (h1 : 1 ≤ d) (hd : d < duration) :
    (final_dayPlaces places duration d).length = places.length / duration := by
  have hdur : 0 < duration := by omega
  have hone : 1 ≤ places.length / duration := (Nat.one_le_div_iff hdur).mpr hdd
  have hP : max 1 (places.length / duration) = places.length / duration := by omega
  simp only [final_dayPlaces]
  rw [if_pos hd, hP, List.length_take, List.length_drop]
  set q := places.length / duration with hq
  have hqle : d * q ≤ places.length := by
    calc d * q ≤ duration * q := Nat.mul_le_mul_right q (le_of_lt hd)
    _ = q * duration := Nat.mul_comm _ _
    _ ≤ places.length := Nat.div_mul_le_self _ _
  have hdq : (d - 1) * q + q = d * q := by
    cases d with
    | zero => omega
    | succ d0 => rw [Nat.succ_sub_one, Nat.succ_mul]
  omega

theorem final_dayPlaces_last_length (places : List String) (duration : ℕ)
    (hD : 1 ≤ duration) (hdd : duration ≤ places.length) :
    (final_dayPlaces places duration duration).length
      = places.length - (duration - 1) * (places.length / duration) := by
  have hdur : 0 < duration := by omega
  have hone : 1 ≤ places.length / duration := (Nat.one_le_div_iff hdur).mpr hdd
  have hP : max 1 (places.length / duration) = places.length / duration := by omega
  simp only [final_dayPlaces]
  rw [if_neg (lt_irrefl duration), hP, List.length_take, List.length_drop]
  omega

/-- **C3 (amended).** For every selected-place list of length N and
duration D ≥ 1, `final_function` partitions the places across the D days
with no place omitted and none duplicated (the concatenation of all
per-day lists equals the full selected-place list); when N ≥ D each day
except the last receives exactly `floor(N/D)` places and the last day
absorbs the remainder (so for N=6, D=3 each day gets 2; for N=7, D=3 days
1–2 get 2 and day 3 gets 3).  When N < D the per-day count is
`max(1, floor(N/D)) = 1`, not `floor(N/D) = 0`: the first N days get one
place each and the remaining days (including the last) get none — see the
counterexample. -/
theorem C3_partition_amended (places : List String) (duration : ℕ) (hD : 1 ≤ duration) :
    (final_days places duration).flatten = places ∧
    (duration ≤ places.length →
      (∀ d, 1 ≤ d → d < duration →
        (final_dayPlaces places duration d).length = places.length / duration) ∧
      (final_dayPlaces places duration duration).length
        = places.length - (duration - 1) * (places.length / duration)) :=
  ⟨final_days_join places duration hD,
    fun hdd => ⟨fun d h1 hd => final_dayPlaces_length places duration d hdd h1 hd,
      final_dayPlaces_last_length places duration hD hdd⟩⟩

/-- Witness for C3: seven places over three days partition exactly, days
1–2 getting 2 places each and day 3 getting 3. -/
theorem C3_partition_witness :
    (final_days ["P1", "P2", "P3", "P4", "P5", "P6", "P7"] 3).flatten
        = ["P1", "P2", "P3", "P4", "P5", "P6", "P7"] ∧
    (final_dayPlaces ["P1", "P2", "P3", "P4", "P5", "P6", "P7"] 3 1).length = 2 ∧
    (final_dayPlaces ["P1", "P2", "P3", "P4", "P5", "P6", "P7"] 3 3).length = 3 :=
  ⟨(C3_partition_amended ["P1", "P2", "P3", "P4", "P5", "P6", "P7"] 3 (by decide)).1,
    ((C3_partition_amended ["P1", "P2", "P3", "P4", "P5", "P6", "P7"] 3 (by decide)).2
      (by decide)).1 1 (by decide) (by decide),
    ((C3_partition_amended ["P1", "P2", "P3", "P4", "P5", "P6", "P7"] 3 (by decide)).2
      (by decide)).2⟩

/-- **C3 (counterexample).** For two places over three days the code gives
day 1 one place (`max(1, 2 // 3) = 1`), not the `floor(2/3) = 0` places the
claim requires, and the last day absorbs nothing instead of the whole
remainder: the partition is `[["A"], ["B"], []]`, not `[[], [], ["A","B"]]`. -/
theorem C3_partition_counterexample :
    final_days ["A", "B"] 3 = [["A"], ["B"], []] ∧
    (final_dayPlaces ["A", "B"] 3 1).length = 1 ∧
    (["A", "B"] : List String).length / 3 = 0 := by
  refine ⟨?_, ?_, ?_⟩ <;> decide

/-- **C6.** For every temperature `t`, `categorize_temperature` returns
`"Cool"` iff `t < 20`, `"Warm"` iff `20 ≤ t ≤ 30` and `"Hot"` iff `t > 30`;
for every humidity `h`, `categorize_humidity` returns `"Dry"` iff `h < 40`,
`"Comfortable"` iff `40 ≤ h ≤ 70` and `"Humid"` iff `h > 70`; in particular
19.9 → Cool, 20 → Warm, 30 → Warm, 30.1 → Hot, 39.9 → Dry,
70 → Comfortable, 70.1 → Humid. -/
theorem C6_weather_categorization :
    (∀ t : ℚ,
      (categorize_temperature t = "Cool" ↔ t < 20) ∧
      (categorize_temperature t = "Warm" ↔ 20 ≤ t ∧ t ≤ 30) ∧
      (categorize_temperature t = "Hot" ↔ 30 < t)) ∧
    (∀ h : ℚ,
      (categorize_humidity h = "Dry" ↔ h < 40) ∧
      (categorize_humidity h = "Comfortable" ↔ 40 ≤ h ∧ h ≤ 70) ∧
      (categorize_humidity h = "Humid" ↔ 70 < h)) ∧
    categorize_temperature 19.9 = "Cool" ∧
    categorize_temperature 20 = "Warm" ∧
    categorize_temperature 30 = "Warm" ∧
    categorize_temperature 30.1 = "Hot" ∧
    categorize_humidity 39.9 = "Dry" ∧
    categorize_humidity 70 = "Comfortable" ∧
    categorize_humidity 70.1 = "Humid" := by
  refine ⟨fun t => ?_, fun h => ?_,
    by norm_num [categorize_temperature], by norm_num [categorize_temperature],
    by norm_num [categorize_temperature], by norm_num [categorize_temperature],
    by norm_num [categorize_humidity], by norm_num [categorize_humidity],
    by norm_num [categorize_humidity]⟩
  · unfold categorize_temperature
    split_ifs with h1 h2
    · exact ⟨⟨fun _ => h1, fun _ => rfl⟩,
        ⟨fun hw => absurd hw (by decide), fun hw => absurd h1 (not_lt.mpr hw.1)⟩,
        ⟨fun hh => absurd hh (by decide), fun hh => absurd h1 (by linarith)⟩⟩
    · exact ⟨⟨fun hc => absurd hc (by decide), fun hc => absurd hc h1⟩,
        ⟨fun _ => ⟨not_lt.mp h1, h2⟩, fun _ => rfl⟩,
        ⟨fun hh => absurd hh (by decide), fun hh => absurd h2 (not_le.mpr hh)⟩⟩
    · exact ⟨⟨fun hc => absurd hc (by decide), fun hc => absurd hc h1⟩,
        ⟨fun hw => absurd hw (by decide), fun hw => absurd hw.2 h2⟩,
        ⟨fun _ => not_le.mp h2, fun _ => rfl⟩⟩
  · unfold categorize_humidity
    split_ifs with h1 h2
    · exact ⟨⟨fun _ => h1, fun _ => rfl⟩,
        ⟨fun hw => absurd hw (by decide), fun hw => absurd h1 (not_lt.mpr hw.1)⟩,
        ⟨fun hh => absurd hh (by decide), fun hh => absurd h1 (by linarith)⟩⟩
    · exact ⟨⟨fun hc => absurd hc (by decide), fun hc => absurd hc h1⟩,
        ⟨fun _ => ⟨not_lt.mp h1, h2⟩, fun _ => rfl⟩,
        ⟨fun hh => absurd hh (by decide), fun hh => absurd h2 (not_le.mpr hh)⟩⟩
    · exact ⟨⟨fun hc => absurd hc (by decide), fun hc => absurd hc h1⟩,
        ⟨fun hw => absurd hw (by decide), fun hw => absurd hw.2 h2⟩,
        ⟨fun _ => not_le.mp h2, fun _ => rfl⟩⟩

/-- Witness for C6: the characterization evaluated at temperature 19.9. -/
theorem C6_weather_categorization_witness :
    categorize_temperature 19.9 = "Cool" ↔ (19.9 : ℚ) < 20 :=
  (C6_weather_categorization.1 19.9).1

/-- **C7.** For budget 15000, duration 3, group size 4, no seniors and no
children, `smart_cost_model` computes a per-person-per-day base of 1250 with
stay 500, travel 250, activities 125, food ∈ {312, 313}, misc ∈ {62, 63},
and the five category shares sum to within ±1 of the base. -/
theorem C7_cost_breakdown_example :
    (smart_cost_model 15000 3 4 0 0).stay = 500 ∧
    (smart_cost_model 15000 3 4 0 0).travel = 250 ∧
    (smart_cost_model 15000 3 4 0 0).activities = 125 ∧
    ((smart_cost_model 15000 3 4 0 0).food = 312 ∨
     (smart_cost_model 15000 3 4 0 0).food = 313) ∧
    ((smart_cost_model 15000 3 4 0 0).misc = 62 ∨
     (smart_cost_model 15000 3 4 0 0).misc = 63) ∧
    (smart_cost_model 15000 3 4 0 0).total_per_person_day = 1250 ∧
    ((smart_cost_model 15000 3 4 0 0).stay + (smart_cost_model 15000 3 4 0 0).food +
      (smart_cost_model 15000 3 4 0 0).travel + (smart_cost_model 15000 3 4 0 0).activities +
      (smart_cost_model 15000 3 4 0 0).misc - 1250).natAbs ≤ 1 := by
  norm_num [smart_cost_model, adjustment, pyRound]

/-- **C8.** For every input with `group_size ≥ 1`, `seniors ≥ 0`,
`children ≥ 0` and `seniors + children ≤ group_size`, the senior/child
adjustment factor applied to the stay and travel shares is never negative. -/
theorem C8_adjustment_nonneg (group_size seniors children : ℕ)
    (hg : 1 ≤ group_size) (hsc : seniors + children ≤ group_size) :
    0 ≤ adjustment group_size seniors children := by
  have hg' : (0 : ℚ) < group_size := by exact_mod_cast hg
  have hsc' : (seniors : ℚ) + children ≤ group_size := by exact_mod_cast hsc
  have hs : (0 : ℚ) ≤ seniors := by positivity
  have hc : (0 : ℚ) ≤ children := by positivity
  unfold adjustment
  rw [if_pos (by exact_mod_cast hg)]
  rw [sub_nonneg, div_le_one hg']
  nlinarith

/-- Witness for C8: the adjustment factor for a group of 4 with 2 seniors
and 2 children is nonnegative. -/
theorem C8_adjustment_nonneg_witness : 0 ≤ adjustment 4 2 2 :=
  C8_adjustment_nonneg 4 2 2 (by decide) (by decide)

end Chakadola
